import Mathlib

/-!
Verification development for the Mini-project repository.

The repository consists of two declarative configuration files:

* `vite.config.js` — a dev-server proxy rule table with two entries,
  `'/transcribe'` and `'/process_content'`, both targeting
  `http://localhost:8000`.
* `Dockerfile` — a seven-step container image build recipe for the
  frontend application.

Both files are configuration consumed by external tools (the Vite dev
server and the container build tool).  The configuration data below is
embedded directly from the source files; the surrounding operational
semantics (prefix-match proxy consultation, request forwarding, the
`COPY`/`RUN` build steps) belong to those external tools and are
modelled from the specification, as marked on each definition.
-/

/-! ## Proxy rule table (from src/vite.config.js, lines 9-12) -/

/-- The proxy rule table of `vite.config.js`: each entry maps a path
pattern to a target origin, in source order. -/
def proxyTable : List (String × String) :=
  [("/transcribe", "http://localhost:8000"),
   ("/process_content", "http://localhost:8000")]

/-- Modelled from the spec: the dev server's consultation of the proxy
rule table, missing from the repository (it lives in the external dev
server).  The table "is consulted for a prefix match" against the
request path, with "exact literal prefixes, case-sensitive, no wildcard
or regex matching beyond prefix semantics"; the first matching entry's
target is returned. -/
def matchRule (path : String) : Option String :=
  (proxyTable.find? (fun e => e.1.data.isPrefixOf path.data)).map Prod.snd

/-- An HTTP request as seen by the dev server: method, path, query
string, header list and body. -/
structure Request where
  method : String
  path : String
  query : String
  headers : List (String × String)
  body : String
deriving DecidableEq

/-- A request as forwarded to a backend origin. -/
structure ForwardedRequest where
  origin : String
  method : String
  path : String
  query : String
  headers : List (String × String)
  body : String
deriving DecidableEq

/-- The host part of an origin URL such as `http://localhost:8000`
(the scheme stripped). -/
def originHost (origin : String) : String :=
  if "http://".data.isPrefixOf origin.data then
    ⟨origin.data.drop "http://".length⟩
  else origin

/-- Rewrite the `Host` header of a header list to the given value,
leaving every other header unchanged. -/
def setHost (hs : List (String × String)) (h : String) : List (String × String) :=
  hs.map (fun kv => if kv.1 = "Host" then (kv.1, h) else kv)

/-- Modelled from the spec: the dev server's forwarding step, missing
from the repository.  On a table match the request is forwarded to the
matched target origin "preserving the remainder of the path and all
HTTP method, headers, and body content unchanged except for the `Host`
header, which is rewritten to match the target origin"; on no match
nothing is forwarded. -/
def proxyHandle (r : Request) : Option ForwardedRequest :=
  match matchRule r.path with
  | some target =>
      some { origin := target, method := r.method, path := r.path,
             query := r.query, headers := setHost r.headers (originHost target),
             body := r.body }
  | none => none

/-- An HTTP response (status code and body). -/
structure Response where
  status : Nat
  body : String
deriving DecidableEq

/-- The connection-failure response surfaced when the backend origin is
unreachable (an HTTP 502-equivalent). -/
def connectionFailure : Response := { status := 502, body := "Bad Gateway" }

/-- Outcome of the dev server's front-end handling of a request:
either a response obtained by proxying, or fall-through to the dev
server's default local handling. -/
inductive DevServerResult where
  | proxied (resp : Response)
  | localHandling
deriving DecidableEq

/-- Modelled from the spec: the dev server's request handling around
the proxy table, missing from the repository.  `backend` is the
backend origin's answer, `none` when the origin is unreachable.  A
matched request is answered by the backend's response, or by an
explicit connection-failure response when the backend is unreachable
(no retry, no fallback); an unmatched request "falls through to
default dev-server behavior". -/
def handleRequest (r : Request) (backend : Option Response) : DevServerResult :=
  match matchRule r.path with
  | some _ =>
      match backend with
      | some resp => .proxied resp
      | none => .proxied connectionFailure
  | none => .localHandling

/-! ## Image build recipe (from src/Dockerfile, lines 2-22) -/

/-- One instruction of the image build recipe. -/
inductive Instr where
  | fromImage (tag : String)
  | workdir (dir : String)
  | copy (src dst : String)
  | runCmd (c : String)
  | expose (port : Nat)
  | cmd (argv : List String)
deriving DecidableEq

/-- The Dockerfile of the repository, instruction by instruction. -/
def dockerfile : List Instr :=
  [Instr.fromImage "node:20-slim",
   Instr.workdir "/app",
   Instr.copy "frontend/package.json" ".",
   Instr.runCmd "npm install",
   Instr.copy "frontend/." ".",
   Instr.expose 5173,
   Instr.cmd ["npm", "run", "dev", "--", "--host", "0.0.0.0"]]

/-- A build context: the files of the source tree sent to the build,
as (path, content) pairs. -/
abbrev Ctx := List (String × String)

/-- A filesystem inside the image under the working directory, as
(relative path, content) pairs. -/
abbrev Fs := List (String × String)

/-- Write one file into the image filesystem, overwriting any existing
entry at the same path. -/
def fsWrite (fs : Fs) (path content : String) : Fs :=
  if (fs.map Prod.fst).contains path then
    fs.map (fun f => if f.1 = path then (path, content) else f)
  else fs ++ [(path, content)]

/-- Strip a leading directory from a path: `some` of the remainder when
`dir` is a string prefix of `path`, else `none`. -/
def stripDir (dir path : String) : Option String :=
  if dir.data.isPrefixOf path.data then some ⟨path.data.drop dir.data.length⟩
  else none

/-- Last `/`-separated component of a path. -/
def basename (p : String) : String :=
  ⟨(p.data.splitOn '/').getLastD []⟩

/-- Modelled from the spec: the external build tool's `COPY src .`
step, missing from the repository.  A source ending in `/.` copies
every context file under that directory into the working directory
(keeping relative paths); otherwise the single named context file is
copied under its base name. -/
def copyEntries (ctx : Ctx) (src : String) : List (String × String) :=
  if src.data.getLastD ' ' = '.' then
    let dir : String := ⟨src.data.dropLast⟩
    (ctx.filterMap (fun f => (stripDir dir f.1).map (fun rel => (rel, f.2))))
  else
    (ctx.filter (fun f => f.1 = src)).map (fun f => (basename f.1, f.2))

/-- Modelled from the spec: the external package manager's
`npm install` step, missing from the repository.  Dependency
resolution is "a fresh, platform-native dependency resolution" that
consumes the manifest visible in the filesystem at install time: its
output is a function of that manifest alone. -/
def npmInstall (fs : Fs) : Fs :=
  match fs.lookup "package.json" with
  | some manifest => fsWrite fs "node_modules/.installed" manifest
  | none => fs

/-- The state accumulated while executing the build recipe. -/
structure BuildState where
  baseImage : Option String
  workdir : Option String
  fs : Fs
  exposed : List Nat
  startCmd : Option (List String)
deriving DecidableEq

/-- The empty state at the start of a build. -/
def initState : BuildState :=
  { baseImage := none, workdir := none, fs := [], exposed := [], startCmd := none }

/-- Modelled from the spec: execution of one build instruction by the
external build tool ("steps execute strictly in declared order").
Copies land in the working directory; `RUN npm install` is interpreted
by `npmInstall`; `EXPOSE` records the declared port; `CMD` records the
startup command. -/
def execInstr (ctx : Ctx) (s : BuildState) : Instr → BuildState
  | Instr.fromImage tag => { s with baseImage := some tag }
  | Instr.workdir d => { s with workdir := some d }
  | Instr.copy src _ =>
      { s with fs := (copyEntries ctx src).foldl (fun fs e => fsWrite fs e.1 e.2) s.fs }
  | Instr.runCmd _ => { s with fs := npmInstall s.fs }
  | Instr.expose p => { s with exposed := s.exposed ++ [p] }
  | Instr.cmd argv => { s with startCmd := some argv }

/-- The build state after the first `n` instructions of the recipe. -/
def buildUpTo (ctx : Ctx) (n : Nat) : BuildState :=
  (dockerfile.take n).foldl (execInstr ctx) initState

/-- The image produced by running the whole recipe on a context. -/
def buildImage (ctx : Ctx) : BuildState :=
  dockerfile.foldl (execInstr ctx) initState

/-- A source tree for the frontend, parameterised by the lock file:
`mkCtx none` has no `package-lock.json`, `mkCtx (some l)` has one with
content `l`.  All other files are fixed. -/
def mkCtx (lock : Option String) : Ctx :=
  [("frontend/package.json", "manifest-v1")] ++
  (match lock with | some l => [("frontend/package-lock.json", l)] | none => []) ++
  [("frontend/src/App.jsx", "app-src")]

/-! ## Helper lemmas -/

/-- Boolean prefix test on character lists agrees with `List.IsPrefix`. -/
theorem isPrefixOf_eq_true_iff {l₁ l₂ : List Char} :
    l₁.isPrefixOf l₂ = true ↔ l₁ <+: l₂ := List.isPrefixOf_iff_prefix

/-- No path starts with both proxied prefixes: the two table keys do not
overlap. -/
theorem not_both_match (p : String)
    (h1 : "/transcribe".data.isPrefixOf p.data = true)
    (h2 : "/process_content".data.isPrefixOf p.data = true) : False := by
  rw [isPrefixOf_eq_true_iff] at h1 h2
  rcases List.prefix_or_prefix_of_prefix h1 h2 with h | h
  · exact absurd (isPrefixOf_eq_true_iff.mpr h) (by decide)
  · exact absurd (isPrefixOf_eq_true_iff.mpr h) (by decide)

/-- Table lookup on any path starting with one of the two configured
prefixes yields the backend origin. -/
theorem matchRule_eq_target_of_match (p : String)
    (h : "/transcribe".data.isPrefixOf p.data = true ∨
         "/process_content".data.isPrefixOf p.data = true) :
    matchRule p = some "http://localhost:8000" := by
  rcases h with h1 | h2
  · simp [matchRule, proxyTable, h1]
  · have h1 : ¬ "/transcribe".data.isPrefixOf p.data = true :=
      fun hc => not_both_match p hc h2
    simp [matchRule, proxyTable, h1, h2]

/-- Stripping a directory from a path that extends it returns the
remainder. -/
theorem stripDir_append (dir rest : String) :
    stripDir dir (dir ++ rest) = some rest := by
  unfold stripDir
  have h1 : dir.data.isPrefixOf (dir ++ rest).data = true := by
    rw [String.data_append, isPrefixOf_eq_true_iff]
    exact ⟨rest.data, rfl⟩
  rw [if_pos h1, String.data_append, List.drop_left]

/-- Rewriting the `Host` header leaves every other header's membership
unchanged. -/
theorem setHost_mem_iff (hs : List (String × String)) (h k v : String)
    (hk : k ≠ "Host") : (k, v) ∈ setHost hs h ↔ (k, v) ∈ hs := by
  induction hs with
  | nil => simp [setHost]
  | cons a t ih =>
    obtain ⟨ak, av⟩ := a
    by_cases ha : ak = "Host"
    · subst ha
      simp only [setHost, List.map_cons, if_pos rfl, List.mem_cons] at *
      constructor
      · rintro (he | hm)
        · exact absurd (congrArg Prod.fst he) hk
        · exact Or.inr (ih.mp hm)
      · rintro (he | hm)
        · exact absurd (congrArg Prod.fst he) hk
        · exact Or.inr (ih.mpr hm)
    · simp only [setHost, List.map_cons, if_neg ha, List.mem_cons] at *
      constructor
      · rintro (he | hm)
        · exact Or.inl he
        · exact Or.inr (ih.mp hm)
      · rintro (he | hm)
        · exact Or.inl he
        · exact Or.inr (ih.mpr hm)

/-! ## Proxy claims -/

/-- C1: every request whose path begins with `/transcribe` or with
`/process_content` is forwarded to the backend origin
`http://localhost:8000` with the original path, query string, method
and body unchanged, and with its headers unchanged except the `Host`
header, which is rewritten to the target origin's host. -/
theorem proxy_forwards_matching_requests (r : Request)
    (h : "/transcribe".data.isPrefixOf r.path.data = true ∨
         "/process_content".data.isPrefixOf r.path.data = true) :
    proxyHandle r =
      some { origin := "http://localhost:8000", method := r.method, path := r.path,
             query := r.query, headers := setHost r.headers "localhost:8000",
             body := r.body } ∧
    ∀ k v : String, k ≠ "Host" →
      ((k, v) ∈ setHost r.headers "localhost:8000" ↔ (k, v) ∈ r.headers) := by
  refine ⟨?_, fun k v hk => setHost_mem_iff r.headers "localhost:8000" k v hk⟩
  unfold proxyHandle
  rw [matchRule_eq_target_of_match r.path h]
  rfl

/-- A sample matching request used to witness the forwarding theorem. -/
def sampleTranscribeReq : Request :=
  { method := "POST", path := "/transcribe/audio", query := "lang=en",
    headers := [("Host", "localhost:5173"), ("Content-Type", "audio/wav")],
    body := "blob" }

/-- Witness for the forwarding theorem at a concrete request. -/
theorem proxy_forwards_matching_requests_witness :
    ("/transcribe".data.isPrefixOf sampleTranscribeReq.path.data = true ∨
     "/process_content".data.isPrefixOf sampleTranscribeReq.path.data = true) ∧
    proxyHandle sampleTranscribeReq =
      some { origin := "http://localhost:8000", method := "POST",
             path := "/transcribe/audio", query := "lang=en",
             headers := setHost sampleTranscribeReq.headers "localhost:8000",
             body := "blob" } :=
  ⟨Or.inl (by decide),
   (proxy_forwards_matching_requests sampleTranscribeReq (Or.inl (by decide))).1⟩

/-- C3: a request whose path begins with neither `/transcribe` nor
`/process_content` is not forwarded to any backend origin; it falls
through to the dev server's default local handling. -/
theorem proxy_ignores_unmatched_requests (r : Request) (backend : Option Response)
    (h1 : "/transcribe".data.isPrefixOf r.path.data = false)
    (h2 : "/process_content".data.isPrefixOf r.path.data = false) :
    proxyHandle r = none ∧
    handleRequest r backend = DevServerResult.localHandling := by
  have hm : matchRule r.path = none := by
    simp [matchRule, proxyTable, h1, h2]
  constructor
  · unfold proxyHandle
    rw [hm]
  · unfold handleRequest
    rw [hm]

/-- A sample non-matching request used to witness the fall-through
theorem. -/
def sampleLocalReq : Request :=
  { method := "GET", path := "/index.html", query := "",
    headers := [("Host", "localhost:5173")], body := "" }

/-- Witness for the fall-through theorem at a concrete request. -/
theorem proxy_ignores_unmatched_requests_witness :
    "/transcribe".data.isPrefixOf sampleLocalReq.path.data = false ∧
    "/process_content".data.isPrefixOf sampleLocalReq.path.data = false ∧
    proxyHandle sampleLocalReq = none ∧
    handleRequest sampleLocalReq none = DevServerResult.localHandling :=
  ⟨by decide, by decide,
   (proxy_ignores_unmatched_requests sampleLocalReq none (by decide) (by decide)).1,
   (proxy_ignores_unmatched_requests sampleLocalReq none (by decide) (by decide)).2⟩

/-- C5: when the backend origin is unreachable, a request to a proxied
path is answered with an explicit connection-failure response (an HTTP
502-equivalent); the model performs a single backend attempt with no
retry and no fallback. -/
theorem backend_down_surfaces_connection_failure (r : Request)
    (h : (matchRule r.path).isSome = true) :
    handleRequest r none = DevServerResult.proxied connectionFailure ∧
    connectionFailure.status = 502 := by
  refine ⟨?_, rfl⟩
  unfold handleRequest
  cases hm : matchRule r.path with
  | some t => rfl
  | none => rw [hm] at h; simp at h

/-- A sample request to a proxied path used to witness the
connection-failure theorem. -/
def sampleProcessReq : Request :=
  { method := "POST", path := "/process_content", query := "",
    headers := [("Host", "localhost:5173")], body := "{}" }

/-- Witness for the connection-failure theorem at a concrete request. -/
theorem backend_down_surfaces_connection_failure_witness :
    (matchRule sampleProcessReq.path).isSome = true ∧
    handleRequest sampleProcessReq none = DevServerResult.proxied connectionFailure :=
  ⟨by decide,
   (backend_down_surfaces_connection_failure sampleProcessReq (by decide)).1⟩

/-- C7: the proxy rule table has exactly two entries, with distinct,
non-overlapping path keys (neither key is a string prefix of the
other), so on any request path at most one entry matches and lookup
order cannot affect the forwarding decision.  The table is a fixed
constant of the configuration. -/
theorem proxy_table_entries_distinct_nonoverlapping :
    proxyTable.length = 2 ∧
    proxyTable.map Prod.fst = ["/transcribe", "/process_content"] ∧
    (("/transcribe" : String) != "/process_content") = true ∧
    "/transcribe".data.isPrefixOf "/process_content".data = false ∧
    "/process_content".data.isPrefixOf "/transcribe".data = false ∧
    ∀ p : String,
      (proxyTable.filter (fun e => e.1.data.isPrefixOf p.data)).length ≤ 1 := by
  refine ⟨rfl, rfl, by decide, by decide, by decide, fun p => ?_⟩
  by_cases h1 : "/transcribe".data.isPrefixOf p.data = true
  · have h2 : ¬ "/process_content".data.isPrefixOf p.data = true :=
      fun hc => not_both_match p h1 hc
    simp [proxyTable, List.filter, h1, h2]
  · by_cases h2 : "/process_content".data.isPrefixOf p.data = true
    · simp [proxyTable, List.filter, h1, h2]
    · simp [proxyTable, List.filter, h1, h2]

/-- C8: table matching is raw, case-sensitive string-prefix matching
on the request path, not restricted to path-segment boundaries: any
path extending one of the two keys as a plain string — for example
`/transcriber/x` or `/process_contents` — is forwarded to the backend
origin. -/
theorem prefix_match_not_segment_restricted :
    matchRule "/transcriber/x" = some "http://localhost:8000" ∧
    matchRule "/process_contents" = some "http://localhost:8000" ∧
    ∀ p : String,
      ("/transcribe".data.isPrefixOf p.data = true ∨
       "/process_content".data.isPrefixOf p.data = true) →
      matchRule p = some "http://localhost:8000" :=
  ⟨by decide, by decide, fun p h => matchRule_eq_target_of_match p h⟩

/-- Witness for the raw-prefix-matching theorem at a concrete path. -/
theorem prefix_match_not_segment_restricted_witness :
    ("/transcribe".data.isPrefixOf "/transcribe123".data = true ∨
     "/process_content".data.isPrefixOf "/transcribe123".data = true) ∧
    matchRule "/transcribe123" = some "http://localhost:8000" :=
  ⟨Or.inl (by decide),
   prefix_match_not_segment_restricted.2.2 "/transcribe123" (Or.inl (by decide))⟩

/-! ## Build recipe claims -/

/-- C2 counterexample: two source trees differing only in the presence
of `package-lock.json` do not build to identical images: step 5's
`COPY frontend/. .` copies the lock file into the image, so one image
contains `package-lock.json` and the other does not. -/
theorem lockfile_changes_build_output :
    decide (buildImage (mkCtx (some "lock-v1")) = buildImage (mkCtx none)) = false ∧
    (buildImage (mkCtx (some "lock-v1"))).fs.lookup "package-lock.json" =
      some "lock-v1" ∧
    (buildImage (mkCtx none)).fs.lookup "package-lock.json" = none := by
  refine ⟨by decide, by decide, by decide⟩

/-- C2 (amended): the lock file has no effect on the dependency-install
step — the build state through step 4 (`RUN npm install`) is identical
for any two source trees differing only in the lock file — but the
final image is not identical, because step 5 copies the lock file into
the image when it is present. -/
theorem lockfile_no_effect_on_install (lock₁ lock₂ : Option String) :
    buildUpTo (mkCtx lock₁) 4 = buildUpTo (mkCtx lock₂) 4 ∧
    (buildImage (mkCtx (some "lock-v1"))).fs.lookup "package-lock.json" =
      some "lock-v1" := by
  refine ⟨?_, by decide⟩
  cases lock₁ <;> cases lock₂ <;> rfl

/-- C4: the build recipe is exactly the seven steps in this fixed
order — base image `node:20-slim` (major version 20, slim variant),
working directory `/app`, copy of the dependency manifest only (a
single-file copy that brings in `package.json` and nothing else, even
when a lock file is present), `npm install` without `--no-optional`,
copy of the remaining source, port declaration, and the startup
command binding the dev server to all interfaces. -/
theorem dockerfile_fixed_seven_step_recipe :
    dockerfile =
      [Instr.fromImage "node:20-slim",
       Instr.workdir "/app",
       Instr.copy "frontend/package.json" ".",
       Instr.runCmd "npm install",
       Instr.copy "frontend/." ".",
       Instr.expose 5173,
       Instr.cmd ["npm", "run", "dev", "--", "--host", "0.0.0.0"]] ∧
    "node:20".data.isPrefixOf "node:20-slim".data = true ∧
    "-slim".data.isSuffixOf "node:20-slim".data = true ∧
    decide ("--no-optional".data <:+: "npm install".data) = false ∧
    copyEntries (mkCtx (some "lock-v1")) "frontend/package.json" =
      [("package.json", "manifest-v1")] ∧
    decide (["--host", "0.0.0.0"] <:+: ["npm", "run", "dev", "--", "--host", "0.0.0.0"])
      = true := by
  refine ⟨rfl, by decide, by decide, by decide, by decide, by decide⟩

/-- All frontend files land in the directory copy of step 5. -/
theorem copyEntries_frontend_mem (name c : String) (ctx : Ctx)
    (h : ("frontend/" ++ name, c) ∈ ctx) :
    (name, c) ∈ copyEntries ctx "frontend/." := by
  unfold copyEntries
  rw [if_pos (by decide)]
  simp only [List.mem_filterMap]
  refine ⟨("frontend/" ++ name, c), h, ?_⟩
  have hdir : (⟨"frontend/.".data.dropLast⟩ : String) = "frontend/" := by decide
  rw [hdir, stripDir_append]
  rfl

/-- C6: step 5 (`COPY frontend/. .`) copies every file under
`frontend/` — the lock file included when present — into the image
working directory `/app`, writing `package.json` again over the copy
made in step 3; only the install step, which runs before this copy,
executes with no lock file in its filesystem. -/
theorem full_copy_includes_lockfile :
    (∀ (name c : String) (ctx : Ctx), ("frontend/" ++ name, c) ∈ ctx →
      (name, c) ∈ copyEntries ctx "frontend/.") ∧
    ("package.json", "manifest-v1") ∈ copyEntries (mkCtx (some "lock-v1")) "frontend/." ∧
    (buildUpTo (mkCtx (some "lock-v1")) 4).fs.lookup "package-lock.json" = none ∧
    (buildImage (mkCtx (some "lock-v1"))).fs.lookup "package-lock.json" =
      some "lock-v1" ∧
    (buildImage (mkCtx (some "lock-v1"))).fs.lookup "package.json" =
      some "manifest-v1" ∧
    (buildImage (mkCtx (some "lock-v1"))).workdir = some "/app" := by
  refine ⟨fun name c ctx h => copyEntries_frontend_mem name c ctx h,
    by decide, by decide, by decide, by decide, by decide⟩

/-- Witness for the full-copy theorem at the concrete lock file of the
sample source tree. -/
theorem full_copy_includes_lockfile_witness :
    ("frontend/" ++ "package-lock.json", "lock-v1") ∈ mkCtx (some "lock-v1") ∧
    ("package-lock.json", "lock-v1") ∈
      copyEntries (mkCtx (some "lock-v1")) "frontend/." :=
  ⟨by decide,
   full_copy_includes_lockfile.1 "package-lock.json" "lock-v1"
     (mkCtx (some "lock-v1")) (by decide)⟩

/-- The ports declared by a recipe's `EXPOSE` instructions. -/
def exposedPorts (df : List Instr) : List Nat :=
  df.filterMap (fun i => match i with | Instr.expose p => some p | _ => none)

/-- The startup commands declared by a recipe's `CMD` instructions. -/
def startCommands (df : List Instr) : List (List String) :=
  df.filterMap (fun i => match i with | Instr.cmd argv => some argv | _ => none)

/-- C9: the recipe declares exactly one inbound listening port, 5173,
and the built image exposes exactly that port. -/
theorem image_exposes_exactly_5173 :
    exposedPorts dockerfile = [5173] ∧
    (buildImage (mkCtx (some "lock-v1"))).exposed = [5173] := by
  refine ⟨rfl, by decide⟩

/-- C10: the recipe declares exactly one startup command; it invokes
the dev-server run command with arguments explicitly requesting the
bind address `0.0.0.0`, and the built image records it as the single
process launched on container start. -/
theorem startup_command_binds_all_interfaces :
    startCommands dockerfile = [["npm", "run", "dev", "--", "--host", "0.0.0.0"]] ∧
    (buildImage (mkCtx (some "lock-v1"))).startCmd =
      some ["npm", "run", "dev", "--", "--host", "0.0.0.0"] ∧
    decide (["--host", "0.0.0.0"] <:+: ["npm", "run", "dev", "--", "--host", "0.0.0.0"])
      = true := by
  refine ⟨rfl, by decide, by decide⟩
